import Mathlib

set_option maxRecDepth 100000

namespace NetMon

/-- Split a list of characters at every non-overlapping occurrence of the
separator `sep`, scanning left to right, with the semantics of Python
`str.split(sep)` for a non-empty separator. `skip` counts separator
characters still to be consumed after a match and `acc` holds the current
segment reversed. The recursion is structural on the character list so that
the kernel can evaluate it on concrete strings. -/
def splitAux (sep : List Char) : List Char → ℕ → List Char → List (List Char)
  | [], _, acc => [acc.reverse]
  | _ :: cs, Nat.succ k, acc => splitAux sep cs k acc
  | c :: cs, 0, acc =>
      if sep.isPrefixOf (c :: cs) then
        acc.reverse :: splitAux sep cs (sep.length - 1) []
      else splitAux sep cs 0 (c :: acc)

/-- Python `s.split(sep)` for a non-empty separator string. -/
def pySplit (s sep : String) : List String :=
  (splitAux sep.toList s.toList 0 []).map String.mk

/-- Python `s.strip()`: remove leading and trailing whitespace. -/
def pyStrip (s : String) : String :=
  String.mk (((s.toList.dropWhile Char.isWhitespace).reverse.dropWhile
    Char.isWhitespace).reverse)

/-- Python `output.splitlines()`, modelled as splitting on the newline
character (the ping outputs at issue separate lines with a plain newline). -/
def splitLines (s : String) : List String := pySplit s "\n"

/-- Numeric value of a list of decimal digit characters. -/
def digitsVal (cs : List Char) : ℕ :=
  cs.foldl (fun n c => 10 * n + (c.toNat - 48)) 0

/-- Value of an unsigned decimal literal: digit characters with at most one
decimal point and at least one digit. Any other shape makes Python
`float()` raise `ValueError`, modelled as `none`. -/
def parseUnsigned (cs : List Char) : Option ℚ :=
  match splitAux ['.'] cs 0 [] with
  | [i] =>
      if i ≠ [] ∧ i.all Char.isDigit then some ((digitsVal i : ℕ) : ℚ) else none
  | [i, f] =>
      if (i ≠ [] ∨ f ≠ []) ∧ i.all Char.isDigit ∧ f.all Char.isDigit then
        some (((digitsVal (i ++ f) : ℕ) : ℚ) / 10 ^ f.length)
      else none
  | _ => none

/-- Python `float(token)` restricted to plain decimal literals with an
optional sign; the exponent, infinity and nan forms never occur in ping
time tokens. A token `float()` rejects is `none` (a raised `ValueError`). -/
def parseFloat (s : String) : Option ℚ :=
  match s.toList with
  | '-' :: rest => (parseUnsigned rest).map (fun q => -q)
  | '+' :: rest => parseUnsigned rest
  | cs => parseUnsigned cs

/-- Operating-system family as tested by `platform.system().lower() ==
"windows"`; every other system takes the Linux/MacOS branch of the code. -/
inductive SystemOS
  | windows
  | unix
deriving DecidableEq

/-- Outcome of `subprocess.run` on the ping command: either the process ran
and produced a return code together with its standard output, or spawning
raised an exception. -/
inductive ProcResult
  | ok (returncode : Int) (stdout : String)
  | spawnError
deriving DecidableEq

/-- The Python membership test `"time=" in line`. -/
def hasTime (line : String) : Bool := 2 ≤ (pySplit line "time=").length

/-- Python `line.split("time=")[1]`: the text after the first occurrence of
`time=`, up to the next occurrence. Lines reaching this point contain
`time=`, so index 1 exists and the default is never used. -/
def afterTime (line : String) : String := (pySplit line "time=").getD 1 ""

/-- The Windows extraction of one round-trip time
(`float(line.split("time=")[1].split("ms")[0].strip())`). -/
def winTime (line : String) : Option ℚ :=
  parseFloat (pyStrip ((pySplit (afterTime line) "ms").getD 0 ""))

/-- The Linux/MacOS extraction of one round-trip time
(`float(line.split("time=")[1].split(" ")[0])`). -/
def unixTime (line : String) : Option ℚ :=
  parseFloat ((pySplit (afterTime line) " ").getD 0 "")

/-- Run the per-line extraction over the kept lines. One failing `float()`
call raises `ValueError` inside the Python list comprehension and aborts the
whole comprehension; `none` models that abort. -/
def parseAll (f : String → Option ℚ) : List String → Option (List ℚ)
  | [] => some []
  | l :: ls =>
      match f l, parseAll f ls with
      | some q, some qs => some (q :: qs)
      | _, _ => none

/-- The list comprehension of `ping_command` (src/main.py lines 63-70): keep
the lines containing `time=` and extract the round-trip time of each. -/
def extractTimes (sys : SystemOS) (output : String) : Option (List ℚ) :=
  parseAll
    (fun line =>
      match sys with
      | SystemOS.windows => winTime line
      | SystemOS.unix => unixTime line)
    ((splitLines output).filter hasTime)

/-- Python `statistics.mean`. -/
def mean (l : List ℚ) : ℚ := l.sum / (l.length : ℚ)

/-- Sample variance with Bessel correction, the square of
`statistics.stdev`. -/
def sampleVariance (l : List ℚ) : ℚ :=
  (l.map (fun x => (x - mean l) ^ 2)).sum / ((l.length : ℚ) - 1)

/-- Python `statistics.stdev`: the square root of the sample variance. The
value is irrational in general, so it lives in the reals. -/
noncomputable def stdev (l : List ℚ) : ℝ := Real.sqrt (sampleVariance l)

/-- `InternetMonitor.ping_command` (src/main.py lines 46-82), as a function
of the os family, the requested probe count and the outcome of the spawned
ping process. The triple is `(avg_ping, jitter, packet_loss)`, with `none`
for a Python `None`. The `count = 0` branch models the `ZeroDivisionError`
that `100 - (len(times) / count * 100)` would raise, caught by the broad
handler; `collect_metrics` always calls with the default `count = 3`. -/
noncomputable def ping_command (sys : SystemOS) (count : ℕ) (res : ProcResult) :
    Option ℚ × Option ℝ × ℚ :=
  match res with
  | ProcResult.spawnError => (none, none, 100)
  | ProcResult.ok rc output =>
      if rc = 0 then
        match extractTimes sys output with
        | none => (none, none, 100)
        | some times =>
            if times = [] then (none, none, 100)
            else if count = 0 then (none, none, 100)
            else
              (some (mean times),
               some (if 1 < times.length then stdev times else 0),
               100 - ((times.length : ℚ) / (count : ℚ) * 100))
      else (none, none, 100)

/-- The mutable fields of `InternetMonitor` that `measure_speed` reads and
writes: `last_speed_test` and `speed_test_interval`. -/
structure SchedState where
  last_speed_test : ℚ
  speed_test_interval : ℚ
deriving DecidableEq

/-- How far the `speedtest.Speedtest()` / `st.download()` / `st.upload()`
call sequence gets before raising, if at all. `failAtUpload` keeps the
download value already measured, to model the path where the download
measurement succeeds and the upload measurement fails. -/
inductive SpeedtestRun
  | failAtInit
  | failAtDownload
  | failAtUpload (downloadBps : ℚ)
  | success (downloadBps uploadBps : ℚ)
deriving DecidableEq

/-- Result of one `measure_speed` call: the returned pair, the scheduler
state afterwards, and whether the speed test was started at all. The flag
is trace instrumentation for the rate-limit claims; in the skip branch the
code returns before touching `speedtest`. -/
structure SpeedOutcome where
  download : Option ℚ
  upload : Option ℚ
  state : SchedState
  invoked : Bool
deriving DecidableEq

/-- `InternetMonitor.measure_speed` (src/main.py lines 28-44), with
`current_time` standing for the `time.time()` read. `last_speed_test` is
assigned only after both download and upload succeeded; every failing path
returns from inside the handler without reaching that assignment, so it
leaves the state unchanged. -/
def measure_speed (s : SchedState) (current_time : ℚ) (run : SpeedtestRun) :
    SpeedOutcome :=
  if current_time - s.last_speed_test < s.speed_test_interval then
    ⟨none, none, s, false⟩
  else
    match run with
    | SpeedtestRun.success d u =>
        ⟨some (d / 1000000), some (u / 1000000),
         ⟨current_time, s.speed_test_interval⟩, true⟩
    | _ => ⟨none, none, s, true⟩

/-- One row of the time series: the `new_row` record of `collect_metrics`. -/
structure Sample where
  timestamp : ℚ
  download_speed : Option ℚ
  upload_speed : Option ℚ
  ping : Option ℚ
  jitter : Option ℝ
  packet_loss : ℚ

/-- The `InternetMonitor` instance state touched by the tick loop. -/
structure Monitor where
  sched : SchedState
  log_count : ℕ
  df : List Sample

/-- Environment of one tick: the two clock reads (`pd.Timestamp.now()` in
`collect_metrics` and `time.time()` in `measure_speed`), the speedtest
outcome, the ambient os family and the ping process outcome. -/
structure TickInput where
  timestamp : ℚ
  current_time : ℚ
  run : SpeedtestRun
  sys : SystemOS
  res : ProcResult

/-- The `new_row` built by `collect_metrics` (src/main.py lines 90-97);
`ping_command` is called with its default `count = 3`. -/
noncomputable def tickSample (m : Monitor) (inp : TickInput) : Sample :=
  ⟨inp.timestamp,
   (measure_speed m.sched inp.current_time inp.run).download,
   (measure_speed m.sched inp.current_time inp.run).upload,
   (ping_command inp.sys 3 inp.res).1,
   (ping_command inp.sys 3 inp.res).2.1,
   (ping_command inp.sys 3 inp.res).2.2⟩

/-- `InternetMonitor.collect_metrics` (src/main.py lines 84-100): run the
two measurements, append the single new row with `pd.concat`, and bump
`log_count` by one. -/
noncomputable def collect_metrics (m : Monitor) (inp : TickInput) : Monitor :=
  ⟨(measure_speed m.sched inp.current_time inp.run).state,
   m.log_count + 1,
   m.df ++ [tickSample m inp]⟩

/-- The `while True` loop of `main` (src/main.py lines 144-149) run over a
list of tick environments, one entry per uninterrupted tick. -/
noncomputable def runTicks (m : Monitor) : List TickInput → Monitor
  | [] => m
  | inp :: rest => runTicks (collect_metrics m inp) rest

/-- `InternetMonitor.__init__` (src/main.py lines 12-26): `loaded` is the
parquet content when the log file exists. `last_speed_test` starts at 0;
`log_count` is the loaded length, or 0 for a fresh empty frame. -/
def initMonitor (speed_test_interval : ℚ) (loaded : Option (List Sample)) :
    Monitor :=
  match loaded with
  | some df => ⟨⟨0, speed_test_interval⟩, df.length, df⟩
  | none => ⟨⟨0, speed_test_interval⟩, 0, []⟩

/-- Linux ping output where two of four requested probes answered. -/
def unixTwoOfFour : String :=
  "64 bytes from 8.8.8.8: icmp_seq=1 ttl=117 time=10.0 ms\n64 bytes from 8.8.8.8: icmp_seq=2 ttl=117 time=12.0 ms\n4 packets transmitted, 2 received"

/-- Linux ping output where three probes answered with round-trip times
10.0, 12.0 and 14.0 ms. -/
def unixThree : String :=
  "x time=10.0 ms\nx time=12.0 ms\nx time=14.0 ms"

/-- Ping output with one good line and one line whose time token `float()`
cannot parse. -/
def unixBadToken : String :=
  "x time=10.0 ms\nx time=bad ms"

/-- The good line of `unixBadToken` alone. -/
def unixGoodOnly : String := "x time=10.0 ms"

/-- Evaluation of the extraction on `unixTwoOfFour`. -/
theorem extract_twoOfFour :
    extractTimes SystemOS.unix unixTwoOfFour = some [10, 12] := by
  have h : extractTimes SystemOS.unix unixTwoOfFour =
      some [((100 : ℕ) : ℚ) / 10 ^ 1, ((120 : ℕ) : ℚ) / 10 ^ 1] := rfl
  rw [h]
  norm_num

/-- Evaluation of the extraction on `unixThree`. -/
theorem extract_three :
    extractTimes SystemOS.unix unixThree = some [10, 12, 14] := by
  have h : extractTimes SystemOS.unix unixThree =
      some [((100 : ℕ) : ℚ) / 10 ^ 1, ((120 : ℕ) : ℚ) / 10 ^ 1,
        ((140 : ℕ) : ℚ) / 10 ^ 1] := rfl
  rw [h]
  norm_num

/-- Evaluation of the extraction on `unixGoodOnly`. -/
theorem extract_goodOnly :
    extractTimes SystemOS.unix unixGoodOnly = some [10] := by
  have h : extractTimes SystemOS.unix unixGoodOnly =
      some [((100 : ℕ) : ℚ) / 10 ^ 1] := rfl
  rw [h]
  norm_num

/-- The sample standard deviation of the example batch is exactly 2. -/
theorem stdev_three : stdev [10, 12, 14] = 2 := by
  have hv : sampleVariance [10, 12, 14] = 4 := by
    norm_num [sampleVariance, mean, List.sum_cons, List.sum_nil]
  rw [stdev, hv]
  rw [show ((4 : ℚ) : ℝ) = 2 ^ 2 by norm_num]
  exact Real.sqrt_sq (by norm_num)

/-- Unfolding of `ping_command` on the fully successful path. -/
theorem ping_ok (sys : SystemOS) (count : ℕ) (output : String)
    (times : List ℚ) (hx : extractTimes sys output = some times)
    (hne : times ≠ []) (hc : count ≠ 0) :
    ping_command sys count (ProcResult.ok 0 output) =
      (some (mean times),
       some (if 1 < times.length then stdev times else 0),
       100 - ((times.length : ℚ) / (count : ℚ) * 100)) := by
  simp only [ping_command, hx, if_true, reduceIte]
  rw [if_neg hne, if_neg hc]

/-- Unfolding of `ping_command` when the comprehension raised. -/
theorem ping_extract_none (sys : SystemOS) (count : ℕ) (output : String)
    (hx : extractTimes sys output = none) :
    ping_command sys count (ProcResult.ok 0 output) = (none, none, 100) := by
  simp [ping_command, hx]

/-- Unfolding of `ping_command` when no line carried a time token. -/
theorem ping_empty (sys : SystemOS) (count : ℕ) (output : String)
    (hx : extractTimes sys output = some []) :
    ping_command sys count (ProcResult.ok 0 output) = (none, none, 100) := by
  simp [ping_command, hx]

/-- Unfolding of `ping_command` on a non-zero exit code. -/
theorem ping_rc (sys : SystemOS) (count : ℕ) (rc : Int) (output : String)
    (h : rc ≠ 0) :
    ping_command sys count (ProcResult.ok rc output) = (none, none, 100) := by
  simp only [ping_command]
  rw [if_neg h]

/-- The returned pair of `measure_speed` is all-or-nothing. -/
theorem measure_speed_paired (s : SchedState) (current_time : ℚ)
    (run : SpeedtestRun) :
    ((measure_speed s current_time run).download = none ∧
      (measure_speed s current_time run).upload = none) ∨
    (∃ d u, (measure_speed s current_time run).download = some d ∧
      (measure_speed s current_time run).upload = some u) := by
  unfold measure_speed
  by_cases hc : current_time - s.last_speed_test < s.speed_test_interval
  · rw [if_pos hc]
    exact Or.inl ⟨rfl, rfl⟩
  · rw [if_neg hc]
    cases run with
    | success d u => exact Or.inr ⟨d / 1000000, u / 1000000, rfl, rfl⟩
    | failAtInit => exact Or.inl ⟨rfl, rfl⟩
    | failAtDownload => exact Or.inl ⟨rfl, rfl⟩
    | failAtUpload d => exact Or.inl ⟨rfl, rfl⟩

/-- A run where the download succeeded but the upload raised still yields
the pair of two absent values. -/
theorem measure_speed_failAtUpload (s : SchedState) (current_time : ℚ)
    (d : ℚ) :
    (measure_speed s current_time (SpeedtestRun.failAtUpload d)).download =
      none ∧
    (measure_speed s current_time (SpeedtestRun.failAtUpload d)).upload =
      none := by
  unfold measure_speed
  by_cases hc : current_time - s.last_speed_test < s.speed_test_interval
  · rw [if_pos hc]
    exact ⟨rfl, rfl⟩
  · rw [if_neg hc]
    exact ⟨rfl, rfl⟩

/-- Each tick grows the series by exactly its one new row. -/
theorem runTicks_df_length (inputs : List TickInput) (m : Monitor) :
    (runTicks m inputs).df.length = m.df.length + inputs.length := by
  induction inputs generalizing m with
  | nil => rfl
  | cons i is ih =>
      have h : (collect_metrics m i).df.length = m.df.length + 1 := by
        simp [collect_metrics]
      calc (runTicks m (i :: is)).df.length
          = (runTicks (collect_metrics m i) is).df.length := rfl
        _ = (collect_metrics m i).df.length + is.length := ih _
        _ = m.df.length + (i :: is).length := by rw [h, List.length_cons]; omega

/-- The series present before a run of ticks is still its initial segment
afterwards: rows are only ever appended. -/
theorem runTicks_df_extends (inputs : List TickInput) (m : Monitor) :
    ∃ tail, (runTicks m inputs).df = m.df ++ tail := by
  induction inputs generalizing m with
  | nil => exact ⟨[], by simp [runTicks]⟩
  | cons i is ih =>
      obtain ⟨t, ht⟩ := ih (collect_metrics m i)
      refine ⟨tickSample m i :: t, ?_⟩
      calc (runTicks m (i :: is)).df
          = (runTicks (collect_metrics m i) is).df := rfl
        _ = (collect_metrics m i).df ++ t := ht
        _ = m.df ++ (tickSample m i :: t) := by simp [collect_metrics]

/-- `log_count` stays equal to the series length across any run of ticks. -/
theorem runTicks_count_inv (inputs : List TickInput) (m : Monitor)
    (h : m.log_count = m.df.length) :
    (runTicks m inputs).log_count = (runTicks m inputs).df.length := by
  induction inputs generalizing m with
  | nil => exact h
  | cons i is ih => exact ih (collect_metrics m i) (by simp [collect_metrics, h])

/-- Claim C1, counterexample: with interval 300 and last_speed_test 0, the
tick at time 300 reaches the probe, the probe fails, and the recorded
timestamp does not advance (it stays 0, not 300); consequently the very
next tick at time 301 reaches the probe again, only 1 second after the
previous failed attempt, which is less than the interval. The claim that
the last-attempt timestamp advances on failing invocations is false of the
code. -/
theorem C1_counterexample :
    (measure_speed ⟨0, 300⟩ 300 SpeedtestRun.failAtInit).invoked = true ∧
    (measure_speed ⟨0, 300⟩ 300 SpeedtestRun.failAtInit).state.last_speed_test
      = 0 ∧
    (measure_speed (measure_speed ⟨0, 300⟩ 300 SpeedtestRun.failAtInit).state
      301 SpeedtestRun.failAtInit).invoked = true ∧
    (301 : ℚ) - 300 < 300 := by
  norm_num [measure_speed]

/-- Claim C1, amended: the probe is only reached when at least the
configured interval has elapsed since the recorded timestamp, and that
timestamp advances exactly on the invocations where the probe succeeds: a
failing invocation (and a skipped tick) leaves it unchanged, so the
cooldown is only guaranteed relative to the last successful attempt. -/
theorem C1_cooldown_amended (s : SchedState) (current_time : ℚ)
    (run : SpeedtestRun) :
    ((measure_speed s current_time run).invoked = true →
      s.speed_test_interval ≤ current_time - s.last_speed_test) ∧
    (∀ d u, run = SpeedtestRun.success d u →
      (measure_speed s current_time run).invoked = true →
      (measure_speed s current_time run).state.last_speed_test =
        current_time) ∧
    ((∀ d u, run ≠ SpeedtestRun.success d u) →
      (measure_speed s current_time run).state.last_speed_test =
        s.last_speed_test) := by
  unfold measure_speed
  by_cases hc : current_time - s.last_speed_test < s.speed_test_interval
  · rw [if_pos hc]
    exact ⟨fun h => Bool.noConfusion h, fun d u _ h => Bool.noConfusion h,
      fun _ => rfl⟩
  · rw [if_neg hc]
    cases run with
    | success d u =>
        exact ⟨fun _ => not_lt.mp hc, fun _ _ _ _ => rfl,
          fun h => absurd rfl (h d u)⟩
    | failAtInit =>
        exact ⟨fun _ => not_lt.mp hc, fun d u h => SpeedtestRun.noConfusion h,
          fun _ => rfl⟩
    | failAtDownload =>
        exact ⟨fun _ => not_lt.mp hc, fun d u h => SpeedtestRun.noConfusion h,
          fun _ => rfl⟩
    | failAtUpload d0 =>
        exact ⟨fun _ => not_lt.mp hc, fun d u h => SpeedtestRun.noConfusion h,
          fun _ => rfl⟩

/-- Witness for the amended C1 theorem at concrete inputs: a successful
invocation at time 400 with interval 300 advances the timestamp to 400, a
failing one leaves it at 0, and the invocation implies 300 elapsed. -/
theorem C1_cooldown_amended_witness :
    (300 : ℚ) ≤ 400 - 0 ∧
    (measure_speed ⟨0, 300⟩ 400
      (SpeedtestRun.success 5 7)).state.last_speed_test = 400 ∧
    (measure_speed ⟨0, 300⟩ 400
      SpeedtestRun.failAtInit).state.last_speed_test = 0 := by
  refine ⟨?_, ?_, ?_⟩
  · exact (C1_cooldown_amended ⟨0, 300⟩ 400 (SpeedtestRun.success 5 7)).1
      (by norm_num [measure_speed])
  · exact (C1_cooldown_amended ⟨0, 300⟩ 400 (SpeedtestRun.success 5 7)).2.1 5 7
      rfl (by norm_num [measure_speed])
  · exact (C1_cooldown_amended ⟨0, 300⟩ 400 SpeedtestRun.failAtInit).2.2
      (fun d u h => SpeedtestRun.noConfusion h)

/-- Claim C2: for a batch with at least one extracted round-trip time, the
returned packet loss is 100 * (1 - len(times) / count), with count the
requested probe count. -/
theorem C2_packet_loss_formula (sys : SystemOS) (count : ℕ) (output : String)
    (times : List ℚ) (hx : extractTimes sys output = some times)
    (hne : times ≠ []) (hc : count ≠ 0) :
    (ping_command sys count (ProcResult.ok 0 output)).2.2 =
      100 * (1 - (times.length : ℚ) / (count : ℚ)) := by
  rw [ping_ok sys count output times hx hne hc]
  show 100 - (times.length : ℚ) / (count : ℚ) * 100 = _
  ring

/-- Witness for C2: two answers out of four requested probes give 50 and a
full batch (three of three) gives 0. -/
theorem C2_packet_loss_formula_witness :
    (ping_command SystemOS.unix 4 (ProcResult.ok 0 unixTwoOfFour)).2.2 = 50 ∧
    (ping_command SystemOS.unix 3 (ProcResult.ok 0 unixThree)).2.2 = 0 := by
  constructor
  · rw [C2_packet_loss_formula SystemOS.unix 4 unixTwoOfFour [10, 12]
      extract_twoOfFour (by simp) (by norm_num)]
    norm_num
  · rw [C2_packet_loss_formula SystemOS.unix 3 unixThree [10, 12, 14]
      extract_three (by simp) (by norm_num)]
    norm_num

/-- Claim C3, behaviour of the code at the failing input: a line whose time
token does not parse makes the whole comprehension raise, so the batch is
answered with (None, None, 100) even though another line held the valid
time 10.0; feeding only the good line yields (10.0, 0, 100 - 100/3). The
claimed drop-the-bad-line behaviour would have produced the latter for the
former input. -/
theorem C3_unparsable_token_discards_batch :
    ping_command SystemOS.unix 3 (ProcResult.ok 0 unixBadToken) =
      (none, none, 100) ∧
    ping_command SystemOS.unix 3 (ProcResult.ok 0 unixGoodOnly) =
      (some 10, some 0, 100 - ((1 : ℚ) / 3 * 100)) := by
  constructor
  · exact ping_extract_none SystemOS.unix 3 unixBadToken rfl
  · rw [ping_ok SystemOS.unix 3 unixGoodOnly [10] extract_goodOnly (by simp)
      (by norm_num)]
    norm_num [mean]

/-- Claim C4: whenever zero valid round-trip times are extracted, whether
through a spawn error, a non-zero exit code, output without a time line, or
output whose only time tokens fail to parse, the result is absent ping,
absent jitter and packet loss 100; and a tick always completes, appending
its one row, so the loop is not halted. -/
theorem C4_zero_times_failure (sys : SystemOS) (count : ℕ) :
    ping_command sys count ProcResult.spawnError = (none, none, 100) ∧
    (∀ rc output, rc ≠ 0 →
      ping_command sys count (ProcResult.ok rc output) = (none, none, 100)) ∧
    (∀ output, extractTimes sys output = some [] →
      ping_command sys count (ProcResult.ok 0 output) = (none, none, 100)) ∧
    (∀ output, extractTimes sys output = none →
      ping_command sys count (ProcResult.ok 0 output) = (none, none, 100)) ∧
    (∀ m inp, (collect_metrics m inp).df.length = m.df.length + 1) :=
  ⟨rfl,
   fun rc output h => ping_rc sys count rc output h,
   fun output h => ping_empty sys count output h,
   fun output h => ping_extract_none sys count output h,
   fun m inp => by simp [collect_metrics]⟩

/-- Witness for C4 at concrete inputs: a spawn error, exit code 1, empty
output, and output with an unparsable token all yield (None, None, 100). -/
theorem C4_zero_times_failure_witness :
    ping_command SystemOS.unix 3 ProcResult.spawnError = (none, none, 100) ∧
    ping_command SystemOS.unix 3 (ProcResult.ok 1 "") = (none, none, 100) ∧
    ping_command SystemOS.unix 3 (ProcResult.ok 0 "") = (none, none, 100) ∧
    ping_command SystemOS.unix 3 (ProcResult.ok 0 unixBadToken) =
      (none, none, 100) :=
  ⟨(C4_zero_times_failure SystemOS.unix 3).1,
   (C4_zero_times_failure SystemOS.unix 3).2.1 1 "" (by norm_num),
   (C4_zero_times_failure SystemOS.unix 3).2.2.1 "" rfl,
   (C4_zero_times_failure SystemOS.unix 3).2.2.2.1 unixBadToken rfl⟩

/-- Claim C5: N uninterrupted ticks from a series of length L leave a
series of exactly length L + N, each tick appends exactly its one new row,
and the starting series is untouched as an initial segment (no edits, no
deletes). -/
theorem C5_series_growth (m : Monitor) (inputs : List TickInput) :
    (runTicks m inputs).df.length = m.df.length + inputs.length ∧
    (∃ tail, (runTicks m inputs).df = m.df ++ tail) ∧
    (∀ inp, (collect_metrics m inp).df = m.df ++ [tickSample m inp]) :=
  ⟨runTicks_df_length inputs m, runTicks_df_extends inputs m, fun _ => rfl⟩

/-- Claim C6: when strictly less than the configured interval has elapsed
since the recorded last attempt, measure_speed returns (None, None), does
not start the probe at all, and leaves the state unchanged. -/
theorem C6_skip_within_interval (s : SchedState) (current_time : ℚ)
    (run : SpeedtestRun)
    (h : current_time - s.last_speed_test < s.speed_test_interval) :
    measure_speed s current_time run = ⟨none, none, s, false⟩ := by
  unfold measure_speed
  rw [if_pos h]

/-- Witness for C6: 100 seconds after a test with interval 300, even a
speedtest that would succeed is not started. -/
theorem C6_skip_within_interval_witness :
    measure_speed ⟨0, 300⟩ 100 (SpeedtestRun.success 5000000 7000000) =
      ⟨none, none, ⟨0, 300⟩, false⟩ :=
  C6_skip_within_interval ⟨0, 300⟩ 100 (SpeedtestRun.success 5000000 7000000)
    (by norm_num)

/-- Claim C7: with a non-empty extracted batch, the returned ping is the
arithmetic mean of the times and the returned jitter is their sample
standard deviation when there are at least two, and 0 for exactly one. -/
theorem C7_mean_stdev (sys : SystemOS) (count : ℕ) (output : String)
    (times : List ℚ) (hx : extractTimes sys output = some times)
    (hne : times ≠ []) (hc : count ≠ 0) :
    (ping_command sys count (ProcResult.ok 0 output)).1 = some (mean times) ∧
    (ping_command sys count (ProcResult.ok 0 output)).2.1 =
      some (if 1 < times.length then stdev times else 0) := by
  rw [ping_ok sys count output times hx hne hc]
  exact ⟨rfl, rfl⟩

/-- Witness for C7: the batch [10.0, 12.0, 14.0] with count 3 yields ping
12, jitter 2 and packet loss 0. -/
theorem C7_mean_stdev_witness :
    (ping_command SystemOS.unix 3 (ProcResult.ok 0 unixThree)).1 = some 12 ∧
    (ping_command SystemOS.unix 3 (ProcResult.ok 0 unixThree)).2.1 = some 2 ∧
    (ping_command SystemOS.unix 3 (ProcResult.ok 0 unixThree)).2.2 = 0 := by
  have h := C7_mean_stdev SystemOS.unix 3 unixThree [10, 12, 14] extract_three
    (by simp) (by norm_num)
  refine ⟨?_, ?_, ?_⟩
  · rw [h.1]
    norm_num [mean]
  · rw [h.2]
    norm_num [stdev_three]
  · rw [ping_ok SystemOS.unix 3 unixThree [10, 12, 14] extract_three (by simp)
      (by norm_num)]
    norm_num

/-- Claim C8: on every return path of measure_speed the download and upload
fields are both present or both absent, in particular on the path where the
download measurement succeeded and the upload raised; hence every appended
row carries the two fields paired. -/
theorem C8_speed_fields_paired (s : SchedState) (current_time : ℚ)
    (run : SpeedtestRun) (m : Monitor) (inp : TickInput) :
    (((measure_speed s current_time run).download = none ∧
      (measure_speed s current_time run).upload = none) ∨
     (∃ d u, (measure_speed s current_time run).download = some d ∧
       (measure_speed s current_time run).upload = some u)) ∧
    (∀ d,
      (measure_speed s current_time (SpeedtestRun.failAtUpload d)).download =
        none ∧
      (measure_speed s current_time (SpeedtestRun.failAtUpload d)).upload =
        none) ∧
    (((tickSample m inp).download_speed = none ∧
      (tickSample m inp).upload_speed = none) ∨
     (∃ d u, (tickSample m inp).download_speed = some d ∧
       (tickSample m inp).upload_speed = some u)) :=
  ⟨measure_speed_paired s current_time run,
   fun d => measure_speed_failAtUpload s current_time d,
   measure_speed_paired m.sched inp.current_time inp.run⟩

/-- Claim C9: latency parsing is deterministic and pure: two evaluations on
the same process outcome and count agree, and the result of the parse
depends on the raw text only through the extracted times. -/
theorem C9_parse_deterministic (sys : SystemOS) (count : ℕ) :
    (∀ res r₁ r₂, r₁ = ping_command sys count res →
      r₂ = ping_command sys count res → r₁ = r₂) ∧
    (∀ out₁ out₂, extractTimes sys out₁ = extractTimes sys out₂ →
      ping_command sys count (ProcResult.ok 0 out₁) =
        ping_command sys count (ProcResult.ok 0 out₂)) := by
  constructor
  · intro res r₁ r₂ h₁ h₂
    rw [h₁, h₂]
  · intro out₁ out₂ h
    simp only [ping_command, h]

/-- Witness for C9 at concrete inputs. -/
theorem C9_parse_deterministic_witness :
    ping_command SystemOS.unix 3 (ProcResult.ok 0 unixThree) =
      ping_command SystemOS.unix 3 (ProcResult.ok 0 unixThree) ∧
    ping_command SystemOS.unix 3 (ProcResult.ok 0 unixGoodOnly) =
      ping_command SystemOS.unix 3 (ProcResult.ok 0 unixGoodOnly) :=
  ⟨(C9_parse_deterministic SystemOS.unix 3).1 (ProcResult.ok 0 unixThree) _ _
      rfl rfl,
   (C9_parse_deterministic SystemOS.unix 3).2 unixGoodOnly unixGoodOnly rfl⟩

/-- Claim C10: log_count always equals the series length: it starts as the
loaded length (or 0 when fresh), and each collect_metrics call bumps it by
one while appending one row, so it is exact after every tick. -/
theorem C10_log_count_exact (interval : ℚ) (loaded : Option (List Sample))
    (inputs : List TickInput) (m : Monitor) (inp : TickInput) :
    (initMonitor interval loaded).log_count =
      (initMonitor interval loaded).df.length ∧
    (collect_metrics m inp).log_count = m.log_count + 1 ∧
    (collect_metrics m inp).df.length = m.df.length + 1 ∧
    (runTicks (initMonitor interval loaded) inputs).log_count =
      (runTicks (initMonitor interval loaded) inputs).df.length := by
  have hinit : (initMonitor interval loaded).log_count =
      (initMonitor interval loaded).df.length := by
    cases loaded with
    | some df => rfl
    | none => rfl
  exact ⟨hinit, rfl, by simp [collect_metrics],
    runTicks_count_inv inputs _ hinit⟩

end NetMon
